import Mathlib

/-!
Shallow embedding of `src/sketch.js` (Face-API → WebSocket bridge) and
verification of its specification claims.

Conventions of the embedding:
* JS `null`/`undefined` values are `Option.none`; a JS variable that may be
  uninitialized is an `Option`.
* JS numbers are modelled as `Rat` (no claim here depends on IEEE-754
  rounding); timestamps (`Date.now()`) are `Nat` epoch milliseconds and are
  passed in as an explicit clock argument.
* `JSON.stringify` is modelled by `serializeWire`: a deterministic, injective
  rendering that mirrors the key order of the object literals in the source
  and omits fields whose value is `undefined`, exactly as `JSON.stringify`
  does.  The filter in `sendData` only ever compares serialized strings for
  equality, so any deterministic injective rendering is faithful.
* Thrown exceptions are modelled by `Option`/explicit error branches; the
  functions of the embedding are total, which reflects that the modelled
  source paths do not throw (or catch what is thrown).
-/

namespace SocketTest

/-- The four WebSocket `readyState` values (`WebSocket.CONNECTING` … ). -/
inductive ReadyState where
  | CONNECTING
  | OPEN
  | CLOSING
  | CLOSED
deriving DecidableEq, Repr

/-- `detection.alignedRect.box`: the face bounding box. -/
structure Box where
  x : Rat
  y : Rat
  width : Rat
  height : Rat
deriving DecidableEq, Repr

/-- `detection.alignedRect` (only its `box` is read by the source). -/
structure AlignedRect where
  box : Box
deriving DecidableEq, Repr

/-- One detection record as consumed by `formatDataForTD` and `draw`.
`gender`, `genderProbability`, `age` may be `undefined` (malformed record);
`alignedRect` may be `undefined` (guarded in `draw`). -/
structure Detection where
  gender : Option String
  genderProbability : Option Rat
  age : Option Rat
  alignedRect : Option AlignedRect
  expressions : List (String × Rat)
deriving DecidableEq, Repr

/-- `face.position` of the wire message. -/
structure FacePosition where
  x : Rat
  y : Rat
  width : Rat
  height : Rat
deriving DecidableEq, Repr

/-- The `face` object of the wire message built by `formatDataForTD`.
Fields copied verbatim from the detection record, so they may be
`undefined` (`none`) when the record is malformed. -/
structure FaceData where
  gender : Option String
  genderConfidence : Option Rat
  age : Option Rat
  position : FacePosition
  expressions : List (String × Rat)
deriving DecidableEq, Repr

/-- The outbound wire message `\x7b timestamp, face \x7d`. -/
structure WireMessage where
  timestamp : Nat
  face : FaceData
deriving DecidableEq, Repr

/-- Rendering of a JS number (model of how a number appears in
`JSON.stringify` output; deterministic and injective on `Rat`). -/
def ratJson (q : Rat) : String :=
  if q.den = 1 then toString q.num else toString q.num ++ "/" ++ toString q.den

/-- Rendering of a JSON string value. -/
def strJson (s : String) : String := "\"" ++ s ++ "\""

/-- Rendering of the `expressions` object, keys in insertion order. -/
def exprsJson (l : List (String × Rat)) : String :=
  "\x7b" ++ String.intercalate "," (l.map (fun p => strJson p.1 ++ ":" ++ ratJson p.2)) ++ "\x7d"

/-- Rendering of `face.position`. -/
def posJson (p : FacePosition) : String :=
  "\x7b\"x\":" ++ ratJson p.x ++ ",\"y\":" ++ ratJson p.y ++
    ",\"width\":" ++ ratJson p.width ++ ",\"height\":" ++ ratJson p.height ++ "\x7d"

/-- Rendering of the `face` object.  As in `JSON.stringify`, a property whose
value is `undefined` is omitted together with its key. -/
def faceJson (f : FaceData) : String :=
  let fields : List String :=
    (match f.gender with
      | none => []
      | some g => ["\"gender\":" ++ strJson g]) ++
    (match f.genderConfidence with
      | none => []
      | some c => ["\"genderConfidence\":" ++ ratJson c]) ++
    (match f.age with
      | none => []
      | some a => ["\"age\":" ++ ratJson a]) ++
    ["\"position\":" ++ posJson f.position,
     "\"expressions\":" ++ exprsJson f.expressions]
  "\x7b" ++ String.intercalate "," fields ++ "\x7d"

/-- `JSON.stringify(data)` for a wire message: key order follows the object
literal in `formatDataForTD` (`timestamp`, then `face`). -/
def serializeWire (w : WireMessage) : String :=
  "\x7b\"timestamp\":" ++ toString w.timestamp ++ ",\"face\":" ++ faceJson w.face ++ "\x7d"

/-- The retry delay of `setInterval(() => setupWebSocket(), 3000)`. -/
def retryDelayMs : Nat := 3000

/-- The mutable top-level state of the script.

* `socket`       — the `socket` variable: `none` before `setupWebSocket`
                   first runs, otherwise the current socket's `readyState`.
* `lastSentData` — the `lastSentData` variable (initially `null`).
* `reconnectInterval` — the `reconnectInterval` variable: `none` while
                   `undefined`, `some id` once assigned an interval id.
                   `clearInterval` does NOT reset this variable.
* `activeTimers` — the browser's registry of still-active intervals,
                   as `(id, periodMs)` pairs; `setInterval` adds an entry,
                   `clearInterval id` removes it.
* `nextTimerId`  — next interval id the browser will hand out (ids are
                   positive, hence truthy, starting from 1).
* `sentFrames`   — trace of every string passed to `socket.send`. -/
structure AppState where
  socket : Option ReadyState
  lastSentData : Option String
  reconnectInterval : Option Nat
  activeTimers : List (Nat × Nat)
  nextTimerId : Nat
  sentFrames : List String
deriving DecidableEq, Repr

/-- State at script start: all variables uninitialized / initial values. -/
def initState : AppState :=
  { socket := none
    lastSentData := none
    reconnectInterval := none
    activeTimers := []
    nextTimerId := 1
    sentFrames := [] }

/-- JS truthiness of the `reconnectInterval` variable (`undefined` and `0`
are falsy; browser interval ids are positive integers). -/
def truthyId : Option Nat → Bool
  | none => false
  | some n => n != 0

/-- `socket && socket.readyState === WebSocket.OPEN`. -/
def connectionIsOpen (s : AppState) : Bool :=
  match s.socket with
  | some ReadyState.OPEN => true
  | _ => false

/-- `setupWebSocket()`: discards any existing socket (closing it; a close
event of the superseded socket may still fire later, see `Step.staleCloseEvt`)
and creates a fresh `WebSocket`, whose `readyState` starts at `CONNECTING`. -/
def setupWebSocket (s : AppState) : AppState :=
  { s with socket := some ReadyState.CONNECTING }

/-- The `socket.onopen` handler: `clearInterval(reconnectInterval)`.
The interval with that id (if any) is deactivated, but the
`reconnectInterval` variable itself is left holding the stale id. -/
def socketOnOpen (s : AppState) : AppState :=
  match s.reconnectInterval with
  | none => s
  | some id => { s with activeTimers := s.activeTimers.filter (fun t => t.1 ≠ id) }

/-- The `socket.onclose` handler: if the `reconnectInterval` variable is
falsy, schedule `setInterval(() => setupWebSocket(), 3000)` and store the
new interval id in the variable; otherwise do nothing. -/
def socketOnClose (s : AppState) : AppState :=
  if truthyId s.reconnectInterval then s
  else
    { s with reconnectInterval := some s.nextTimerId
             activeTimers := s.activeTimers ++ [(s.nextTimerId, retryDelayMs)]
             nextTimerId := s.nextTimerId + 1 }

/-- `sendData(data)`: returns `false` when the socket is absent or not
`OPEN`; otherwise serializes `data` and, only if the string differs from
`lastSentData`, transmits it (appended to `sentFrames`), stores it in
`lastSentData` and returns `true`; an identical string returns `false`
with no state change. -/
def sendData (s : AppState) (data : WireMessage) : Bool × AppState :=
  match s.socket with
  | none => (false, s)
  | some rs =>
    if rs ≠ ReadyState.OPEN then (false, s)
    else
      let jsonData := serializeWire data
      if s.lastSentData ≠ some jsonData then
        (true, { s with sentFrames := s.sentFrames ++ [jsonData]
                        lastSentData := some jsonData })
      else (false, s)

/-- The wire message `formatDataForTD` builds once `detection.alignedRect`
is known to be present: every field is copied verbatim from the record
(`gender`, `genderProbability`, `age`, `expressions`) or from
`alignedRect.box`, and the timestamp is the current clock reading. -/
def buildWire (now : Nat) (detection : Detection) (ar : AlignedRect) : WireMessage :=
  { timestamp := now
    face :=
      { gender := detection.gender
        genderConfidence := detection.genderProbability
        age := detection.age
        position :=
          { x := ar.box.x
            y := ar.box.y
            width := ar.box.width
            height := ar.box.height }
        expressions := detection.expressions } }

/-- `formatDataForTD(detection)` with the `Date.now()` reading passed in as
`now`.  Reading `detection.alignedRect.box` throws a `TypeError` when
`alignedRect` is `undefined`; that (unreached, `draw` guards it) branch is
modelled as `none`. -/
def formatDataForTD (now : Nat) (detection : Detection) : Option WireMessage :=
  match detection.alignedRect with
  | none => none
  | some ar => some (buildWire now detection ar)

/-- The gender label shown by `draw`: `detection.gender || "unknown"`
(JS: `undefined` and the empty string are falsy). -/
def drawGenderLabel (detection : Detection) : String :=
  match detection.gender with
  | none => "unknown"
  | some g => if g = "" then "unknown" else g

/-- The confidence value shown by `draw`: either the string
`(p * 100).toFixed(1)` (kept symbolic, carrying the pre-rounding value) or
the number `0`. -/
inductive ConfDisplay where
  | fixed1 (val : Rat)
  | zero
deriving DecidableEq, Repr

/-- `detection.genderProbability ? (detection.genderProbability * 100).toFixed(1) : 0`
(JS: `undefined` and `0` are falsy). -/
def drawConfidence (detection : Detection) : ConfDisplay :=
  match detection.genderProbability with
  | none => ConfDisplay.zero
  | some p => if p = 0 then ConfDisplay.zero else ConfDisplay.fixed1 (p * 100)

/-- One iteration of the `detections.forEach` body in `draw`, restricted to
its state-relevant effects (the p5 drawing calls are pure rendering).  A
`null`/`undefined` entry or one without `alignedRect` returns early:
`formatDataForTD` is not called and nothing is sent.  Otherwise the entry is
formatted and handed to `sendData`.  The second component records the
formatted message when (and only when) `formatDataForTD` was invoked. -/
def processDetectionEntry (now : Nat) (s : AppState) (entry : Option Detection) :
    AppState × Option WireMessage :=
  match entry with
  | none => (s, none)
  | some d =>
    match d.alignedRect with
    | none => (s, none)
    | some ar =>
      let faceData := buildWire now d ar
      ((sendData s faceData).2, some faceData)

/-- The detection-processing loop of `draw`: `detections.forEach(...)` in
order.  (The `detections.length > 0` guard is behaviourally identical to
iterating the empty list.)  The source stamps each record with its own
`Date.now()` inside `formatDataForTD`; the single `now` argument stands for
those readings — every claim proved below is universally quantified over it
and none depends on distinct readings within one pass.  Returns the final
state and the ordered list of messages that were formatted. -/
def drawPass (now : Nat) (s : AppState) (ds : List (Option Detection)) :
    AppState × List WireMessage :=
  match ds with
  | [] => (s, [])
  | e :: rest =>
    let p := processDetectionEntry now s e
    let q := drawPass now p.1 rest
    (q.1, match p.2 with
          | none => q.2
          | some m => m :: q.2)

/-- The body of the `setInterval(async () => ..., 100)` detection tick in
`setup`, as it affects the shared `detections` array.  `inferResult` is the
outcome of `await faceapi.detectAllFaces(...).with...()` (an `error` models
a thrown/rejected inference), `resize` is `faceapi.resizeResults` (an
`error` models it throwing).  The `try/catch` wraps both: an inference
failure leaves `detections` at its previous value `old`; a resize failure
occurs after `detections` was already assigned the unresized results. -/
def tickDetections (videoReady : Bool)
    (inferResult : Except String (List (Option Detection)))
    (resize : List (Option Detection) → Except String (List (Option Detection)))
    (old : List (Option Detection)) : List (Option Detection) :=
  if videoReady then
    match inferResult with
    | Except.error _ => old
    | Except.ok ds =>
      match resize ds with
      | Except.error _ => ds
      | Except.ok ds2 => ds2
  else old

/-- Events of the single-threaded event loop, as state transitions.
`initialSetup` is the `setupWebSocket()` call from `setup`; `openEvt`,
`errorEvt`, `closeEvt` are the browser firing the current socket's
handlers (the browser moves `readyState` before the handler runs);
`staleCloseEvt` is the close event of a superseded socket (its handler body
is the same `onclose` code and touches no per-socket state); `timerFire`
is an active reconnection interval invoking `setupWebSocket`; `sendEvt` is
a `sendData` call from `draw`. -/
inductive Step : AppState → AppState → Prop where
  | initialSetup (s : AppState) : Step s (setupWebSocket s)
  | openEvt (s : AppState) (h : s.socket = some ReadyState.CONNECTING) :
      Step s (socketOnOpen { s with socket := some ReadyState.OPEN })
  | errorEvt (s : AppState) (h : s.socket.isSome = true) : Step s s
  | closeEvt (s : AppState) (h : s.socket.isSome = true) :
      Step s (socketOnClose { s with socket := some ReadyState.CLOSED })
  | staleCloseEvt (s : AppState) : Step s (socketOnClose s)
  | timerFire (s : AppState) (id d : Nat) (h : (id, d) ∈ s.activeTimers) :
      Step s (setupWebSocket s)
  | sendEvt (s : AppState) (m : WireMessage) : Step s (sendData s m).2

/-- States reachable from script start. -/
inductive Reachable : AppState → Prop where
  | init : Reachable initState
  | step (s t : AppState) (hs : Reachable s) (st : Step s t) : Reachable t

/-! ### Concrete fixtures (the §8 scenario record and derived states) -/

/-- The scenario record of §8: box (10,10,50,50), female, 0.92 (= 23/25,
written as an explicit reduced fraction so the kernel can evaluate it),
age 30, `\x7b happy: 0.8 \x7d` (0.8 = 4/5). -/
def sampleDetection : Detection :=
  { gender := some "female"
    genderProbability := some (Rat.mk' 23 25)
    age := some 30
    alignedRect := some { box := { x := 10, y := 10, width := 50, height := 50 } }
    expressions := [("happy", Rat.mk' 4 5)] }

/-- The same record with `age := 31` (a non-identical payload). -/
def sampleDetection2 : Detection :=
  { sampleDetection with age := some 31 }

/-- The bounding box of `sampleDetection`. -/
def sampleRect : AlignedRect :=
  { box := { x := 10, y := 10, width := 50, height := 50 } }

/-- Wire message of `sampleDetection` at clock 1000. -/
def sampleWire : WireMessage := buildWire 1000 sampleDetection sampleRect

/-- Wire message of `sampleDetection2` at clock 1000. -/
def sampleWire2 : WireMessage := buildWire 1000 sampleDetection2 sampleRect

/-- A state whose socket exists but is `CLOSED` (e.g. after a lost
connection, before any successful send). -/
def closedState : AppState := { initState with socket := some ReadyState.CLOSED }

/-- A state whose socket is `OPEN` and nothing was sent yet. -/
def openState : AppState := { initState with socket := some ReadyState.OPEN }

/-- An `OPEN` state whose last sent data is exactly `sampleWire`. -/
def openDupState : AppState :=
  { openState with lastSentData := some (serializeWire sampleWire) }

/-- The state after: initial `setupWebSocket`; the connection opens; it
closes (scheduling retry interval id 1); the interval fires
(`setupWebSocket` again); the new connection opens (`onopen` runs
`clearInterval(1)` but leaves `reconnectInterval = 1`). -/
def stateAfterFirstRecovery : AppState :=
  { socket := some ReadyState.OPEN
    lastSentData := none
    reconnectInterval := some 1
    activeTimers := []
    nextTimerId := 2
    sentFrames := [] }

/-- `n` consecutive close events (browser sets `readyState = CLOSED`, then
the `onclose` handler runs), iterated. -/
def closeEventIter : Nat → AppState → AppState
  | 0, s => s
  | n + 1, s => closeEventIter n (socketOnClose { s with socket := some ReadyState.CLOSED })

/-! ### Helper lemmas -/

lemma connectionIsOpen_iff (s : AppState) :
    connectionIsOpen s = true ↔ s.socket = some ReadyState.OPEN := by
  unfold connectionIsOpen
  rcases hs : s.socket with _ | rs
  · simp
  · cases rs <;> simp

lemma sendData_not_open (s : AppState) (m : WireMessage)
    (h : connectionIsOpen s = false) : sendData s m = (false, s) := by
  unfold sendData
  unfold connectionIsOpen at h
  rcases hs : s.socket with _ | rs
  · rfl
  · rw [hs] at h
    cases rs <;> simp_all

lemma sendData_open_new (s : AppState) (m : WireMessage)
    (h1 : connectionIsOpen s = true)
    (h2 : s.lastSentData ≠ some (serializeWire m)) :
    sendData s m =
      (true, { s with sentFrames := s.sentFrames ++ [serializeWire m]
                      lastSentData := some (serializeWire m) }) := by
  rw [connectionIsOpen_iff] at h1
  unfold sendData
  rw [h1]
  simp [h2]

lemma sendData_open_dup (s : AppState) (m : WireMessage)
    (h1 : connectionIsOpen s = true)
    (h2 : s.lastSentData = some (serializeWire m)) :
    sendData s m = (false, s) := by
  rw [connectionIsOpen_iff] at h1
  unfold sendData
  rw [h1]
  simp [h2]

lemma reachable_stateAfterFirstRecovery : Reachable stateAfterFirstRecovery := by
  have h0 : Reachable initState := Reachable.init
  have h1 := Reachable.step _ _ h0 (Step.initialSetup initState)
  have h2 := Reachable.step _ _ h1 (Step.openEvt _ rfl)
  have h3 := Reachable.step _ _ h2 (Step.closeEvt _ rfl)
  have h4 := Reachable.step _ _ h3 (Step.timerFire _ 1 3000 (by decide))
  have h5 := Reachable.step _ _ h4 (Step.openEvt _ rfl)
  exact h5

lemma sendData_fields (s : AppState) (m : WireMessage) :
    (sendData s m).2.activeTimers = s.activeTimers ∧
    (sendData s m).2.reconnectInterval = s.reconnectInterval ∧
    (sendData s m).2.nextTimerId = s.nextTimerId ∧
    (sendData s m).2.socket = s.socket := by
  unfold sendData
  rcases hs : s.socket with _ | rs
  · exact ⟨rfl, rfl, rfl, hs⟩
  · dsimp only
    split
    · exact ⟨rfl, rfl, rfl, hs⟩
    · split
      · exact ⟨rfl, rfl, rfl, rfl⟩
      · exact ⟨rfl, rfl, rfl, hs⟩

/-- The scheduling invariant: a falsy `reconnectInterval` variable means no
interval is active; at most one interval is ever active; interval ids are
positive. -/
def timerInvariant (s : AppState) : Prop :=
  (truthyId s.reconnectInterval = false → s.activeTimers = []) ∧
  s.activeTimers.length ≤ 1 ∧ 1 ≤ s.nextTimerId

lemma socketOnOpen_timerInvariant (s : AppState) (h : timerInvariant s) :
    timerInvariant (socketOnOpen s) := by
  obtain ⟨h1, h2, h3⟩ := h
  unfold socketOnOpen
  rcases hv : s.reconnectInterval with _ | id
  · exact ⟨h1, h2, h3⟩
  · refine ⟨fun hf => ?_, ?_, h3⟩
    · have hb : s.activeTimers = [] := h1 (by rw [hv]; simpa [truthyId] using hf)
      simp [hb]
    · exact le_trans (List.length_filter_le _ _) h2

lemma socketOnClose_timerInvariant (s : AppState) (h : timerInvariant s) :
    timerInvariant (socketOnClose s) := by
  obtain ⟨h1, h2, h3⟩ := h
  unfold socketOnClose
  rcases ht : truthyId s.reconnectInterval
  · have hb : s.activeTimers = [] := h1 ht
    simp only [Bool.false_eq_true, if_false]
    refine ⟨fun hf => ?_, ?_, ?_⟩
    · exfalso
      have : s.nextTimerId ≠ 0 := by omega
      simp [truthyId, this] at hf
    · simp [hb]
    · exact Nat.le_succ_of_le h3
  · simp only [if_pos rfl]
    exact ⟨h1, h2, h3⟩

lemma step_timerInvariant {s t : AppState} (st : Step s t) (h : timerInvariant s) :
    timerInvariant t := by
  cases st with
  | initialSetup => exact h
  | openEvt hs => exact socketOnOpen_timerInvariant _ h
  | errorEvt hs => exact h
  | closeEvt hs => exact socketOnClose_timerInvariant _ h
  | staleCloseEvt => exact socketOnClose_timerInvariant _ h
  | timerFire id d hm => exact h
  | sendEvt m =>
    obtain ⟨e1, e2, e3, _⟩ := sendData_fields s m
    obtain ⟨h1, h2, h3⟩ := h
    exact ⟨fun hf => by rw [e1]; exact h1 (by rwa [e2] at hf),
           by rw [e1]; exact h2, by rw [e3]; exact h3⟩

lemma reachable_timerInvariant {s : AppState} (h : Reachable s) : timerInvariant s := by
  induction h with
  | init => exact ⟨fun _ => rfl, by decide, by decide⟩
  | step s t hs st ih => exact step_timerInvariant st ih

/-- In every reachable state at most one reconnection interval is active:
`socket.onclose` only schedules when the `reconnectInterval` variable is
falsy, and scheduling makes it truthy for good. -/
theorem at_most_one_retry_timer {s : AppState} (h : Reachable s) :
    s.activeTimers.length ≤ 1 :=
  (reachable_timerInvariant h).2.1

lemma drawPass_messages (now : Nat) (s : AppState) (ds : List (Option Detection)) :
    (drawPass now s ds).2 = ds.filterMap (fun e => e.bind (formatDataForTD now)) := by
  induction ds generalizing s with
  | nil => rfl
  | cons e rest ih =>
    rcases e with _ | d
    · simp [drawPass, processDetectionEntry, ih]
    · rcases har : d.alignedRect with _ | ar
      · simp [drawPass, processDetectionEntry, formatDataForTD, har, ih]
      · simp [drawPass, processDetectionEntry, formatDataForTD, har, ih]

/-- A detection record whose gender and gender-confidence fields are
missing (`undefined`), bounding box present. -/
def malformedDetection : Detection :=
  { gender := none
    genderProbability := none
    age := some 30
    alignedRect := some sampleRect
    expressions := [] }

/-! ### Claims -/

set_option maxRecDepth 8192

/-- C1, counterexample: with the socket `CLOSED` and nothing sent yet,
`sendData` returns `false` WITHOUT updating the Change Filter snapshot
`lastSentData` to the submitted message — the source checks the connection
before it touches the filter — and after the socket re-opens, resubmitting
the identical message transmits it.  This refutes both the "snapshot has
already been updated in the same call" and the "resubmission is suppressed
and never transmitted" parts of the claim. -/
theorem c1_counterexample_dropped_message_is_retried :
    (sendData closedState sampleWire).1 = false ∧
    (sendData closedState sampleWire).2.lastSentData ≠ some (serializeWire sampleWire) ∧
    (sendData { (sendData closedState sampleWire).2 with
        socket := some ReadyState.OPEN } sampleWire).1 = true ∧
    (sendData { (sendData closedState sampleWire).2 with
        socket := some ReadyState.OPEN } sampleWire).2.sentFrames =
      [serializeWire sampleWire] := by
  refine ⟨by decide, by decide, by decide, by decide⟩

/-- C1, amended: for every wire message submitted while the connection is
not Open, `sendData` returns `false` and leaves the state — in particular
the Change Filter snapshot `lastSentData` — unchanged; consequently, after
reconnection a resubmission of the identical message is transmitted
(returns `true`) whenever its serialization differs from the last
successfully sent data. -/
theorem c1_amended_send_while_not_open_keeps_snapshot
    (s : AppState) (m : WireMessage) (h : connectionIsOpen s = false) :
    sendData s m = (false, s) ∧
    (s.lastSentData ≠ some (serializeWire m) →
      (sendData { s with socket := some ReadyState.OPEN } m).1 = true ∧
      (sendData { s with socket := some ReadyState.OPEN } m).2.sentFrames =
        s.sentFrames ++ [serializeWire m]) := by
  refine ⟨sendData_not_open s m h, fun h2 => ?_⟩
  have h3 := sendData_open_new { s with socket := some ReadyState.OPEN } m rfl h2
  rw [h3]
  exact ⟨rfl, rfl⟩

/-- Witness for the amended C1 at a concrete closed state and message. -/
theorem c1_amended_witness :
    connectionIsOpen closedState = false ∧
    closedState.lastSentData ≠ some (serializeWire sampleWire) ∧
    sendData closedState sampleWire = (false, closedState) ∧
    (sendData { closedState with socket := some ReadyState.OPEN } sampleWire).1 = true := by
  refine ⟨by decide, by decide, ?_, ?_⟩
  · exact (c1_amended_send_while_not_open_keeps_snapshot closedState sampleWire (by decide)).1
  · exact ((c1_amended_send_while_not_open_keeps_snapshot closedState sampleWire
      (by decide)).2 (by decide)).1

/-- C2: the code violates the claim.  `stateAfterFirstRecovery` — reached by
initial connect, a close (which schedules retry interval id 1 at 3000 ms),
the interval firing, and the new connection opening (`onopen` runs
`clearInterval` but leaves the `reconnectInterval` variable holding the
stale id) — has no pending retry timer, yet the next close event schedules
NO retry: the guard `if (!reconnectInterval)` sees the stale truthy id, so
the connection stays closed with no timer ever pending again, contradicting
"reconnection retries run indefinitely ... including after any number of
earlier successful connections". -/
theorem c2_no_retry_scheduled_after_first_recovery :
    Reachable stateAfterFirstRecovery ∧
    stateAfterFirstRecovery.socket = some ReadyState.OPEN ∧
    stateAfterFirstRecovery.activeTimers = [] ∧
    (socketOnClose { stateAfterFirstRecovery with
        socket := some ReadyState.CLOSED }).activeTimers = [] ∧
    (socketOnClose { stateAfterFirstRecovery with
        socket := some ReadyState.CLOSED }).socket = some ReadyState.CLOSED :=
  ⟨reachable_stateAfterFirstRecovery, by decide, by decide, by decide, by decide⟩

/-- C3, counterexample: in an `OPEN` state whose `lastSentData` equals the
serialized payload, `sendData` returns `false` and transmits nothing,
refuting "otherwise (state is Open) it transmits the payload and returns
`true`" — the source couples the send with the change filter. -/
theorem c3_counterexample_open_duplicate_not_sent :
    connectionIsOpen openDupState = true ∧
    (sendData openDupState sampleWire).1 = false ∧
    (sendData openDupState sampleWire).2.sentFrames = openDupState.sentFrames := by
  refine ⟨by decide, by decide, by decide⟩

/-- C3, amended: `sendData` returns `false` immediately (and without
error — it is a total function) when the state is not Open; when the state
is Open it transmits the payload and returns `true` exactly when the
serialized payload differs from `lastSentData`, and otherwise returns
`false` having transmitted nothing. -/
theorem c3_amended_send_contract (s : AppState) (m : WireMessage) :
    (connectionIsOpen s = false → sendData s m = (false, s)) ∧
    (connectionIsOpen s = true →
      (s.lastSentData ≠ some (serializeWire m) →
        sendData s m =
          (true, { s with sentFrames := s.sentFrames ++ [serializeWire m]
                          lastSentData := some (serializeWire m) })) ∧
      (s.lastSentData = some (serializeWire m) → sendData s m = (false, s))) :=
  ⟨fun h => sendData_not_open s m h,
   fun h1 => ⟨fun h2 => sendData_open_new s m h1 h2,
              fun h2 => sendData_open_dup s m h1 h2⟩⟩

/-- Witness for the amended C3: a closed-state send and an open-state send
at concrete inputs. -/
theorem c3_amended_witness :
    connectionIsOpen closedState = false ∧
    sendData closedState sampleWire = (false, closedState) ∧
    connectionIsOpen openState = true ∧
    (sendData openState sampleWire).1 = true := by
  refine ⟨by decide, ?_, by decide, ?_⟩
  · exact (c3_amended_send_contract closedState sampleWire).1 (by decide)
  · rw [((c3_amended_send_contract openState sampleWire).2 (by decide)).1 (by decide)]

/-- C4: the code violates the "exactly one" part of the claim.  From the
reachable state `stateAfterFirstRecovery`, in which no retry is scheduled
(`activeTimers = []`), `N` consecutive close events schedule ZERO retries
(shown for `N` = 1 and 3), not exactly one: the stale truthy
`reconnectInterval` variable defeats the scheduling guard.  (The
at-most-one half is true; see `at_most_one_retry_timer`.) -/
theorem c4_closes_after_recovery_schedule_zero_not_one :
    Reachable stateAfterFirstRecovery ∧
    stateAfterFirstRecovery.activeTimers.length = 0 ∧
    (closeEventIter 1 stateAfterFirstRecovery).activeTimers.length = 0 ∧
    (closeEventIter 3 stateAfterFirstRecovery).activeTimers.length = 0 :=
  ⟨reachable_stateAfterFirstRecovery, by decide, by decide, by decide⟩

/-- C5: with the connection Open throughout and the message new to the
filter, submitting identical serialized content twice yields `true` then
`false`, and a subsequent payload with different serialization yields
`true` again. -/
theorem c5_idempotent_suppression (s : AppState) (m m2 : WireMessage)
    (hopen : connectionIsOpen s = true)
    (hnew : s.lastSentData ≠ some (serializeWire m))
    (hdiff : serializeWire m2 ≠ serializeWire m) :
    (sendData s m).1 = true ∧
    (sendData (sendData s m).2 m).1 = false ∧
    (sendData (sendData (sendData s m).2 m).2 m2).1 = true := by
  have h1 := sendData_open_new s m hopen hnew
  have e1 : (sendData s m).2 =
      { s with sentFrames := s.sentFrames ++ [serializeWire m]
               lastSentData := some (serializeWire m) } := by rw [h1]
  have hopen1 : connectionIsOpen { s with
      sentFrames := s.sentFrames ++ [serializeWire m]
      lastSentData := some (serializeWire m) } = true := by
    rw [connectionIsOpen_iff] at hopen ⊢
    exact hopen
  have h2 := sendData_open_dup _ m hopen1 rfl
  have e2 : (sendData { s with
      sentFrames := s.sentFrames ++ [serializeWire m]
      lastSentData := some (serializeWire m) } m).2 =
      { s with sentFrames := s.sentFrames ++ [serializeWire m]
               lastSentData := some (serializeWire m) } := by rw [h2]
  have h3 := sendData_open_new { s with
      sentFrames := s.sentFrames ++ [serializeWire m]
      lastSentData := some (serializeWire m) } m2 hopen1
    (fun hc => hdiff (Option.some.inj hc).symm)
  refine ⟨?_, ?_, ?_⟩
  · rw [h1]
  · rw [e1, h2]
  · rw [e1, e2, h3]

/-- Witness for C5 at concrete inputs: the §8 scenario record sent twice,
then the `age := 31` variant. -/
theorem c5_witness :
    connectionIsOpen openState = true ∧
    openState.lastSentData ≠ some (serializeWire sampleWire) ∧
    serializeWire sampleWire2 ≠ serializeWire sampleWire ∧
    ((sendData openState sampleWire).1 = true ∧
     (sendData (sendData openState sampleWire).2 sampleWire).1 = false ∧
     (sendData (sendData (sendData openState sampleWire).2 sampleWire).2 sampleWire2).1
       = true) := by
  refine ⟨by decide, by decide, by decide, ?_⟩
  exact c5_idempotent_suppression openState sampleWire sampleWire2
    (by decide) (by decide) (by decide)

/-- C6: calling `sendData` while the state is not Open — including before
any socket exists — returns `false`, does not throw (the embedding is a
total function whose not-open branch is a bare `return false`), and leaves
`lastSentData` (indeed the entire state) unchanged. -/
theorem c6_send_while_closed_safe_noop (s : AppState) (m : WireMessage)
    (h : connectionIsOpen s = false) :
    (sendData s m).1 = false ∧
    (sendData s m).2.lastSentData = s.lastSentData ∧
    (sendData s m).2 = s := by
  rw [sendData_not_open s m h]
  exact ⟨rfl, rfl, rfl⟩

/-- Witness for C6 at the uninitialized state (no socket yet). -/
theorem c6_witness :
    connectionIsOpen initState = false ∧
    (sendData initState sampleWire).1 = false ∧
    (sendData initState sampleWire).2 = initState := by
  refine ⟨by decide,
    (c6_send_while_closed_safe_noop initState sampleWire (by decide)).1,
    (c6_send_while_closed_safe_noop initState sampleWire (by decide)).2.2⟩

/-- C7, counterexample: for a record with missing gender and
gender-confidence fields, `formatDataForTD` copies the missing values into
the wire message unchanged — the outbound message carries NO `"unknown"`
gender and NO `0` confidence (the fields are absent, as `JSON.stringify`
omits `undefined`).  The claimed defaults exist only in `draw`'s on-screen
text. -/
theorem c7_counterexample_wire_message_has_no_defaults :
    formatDataForTD 1000 malformedDetection =
      some (buildWire 1000 malformedDetection sampleRect) ∧
    (buildWire 1000 malformedDetection sampleRect).face.gender ≠ some "unknown" ∧
    (buildWire 1000 malformedDetection sampleRect).face.genderConfidence ≠ some 0 := by
  refine ⟨rfl, by decide, by decide⟩

/-- C7, amended: a record missing its gender fields does not fail the tick:
`formatDataForTD` succeeds (the bounding box being present) and copies the
missing fields verbatim (`none`) into the wire message, while the
`"unknown"` / `0` defaults are applied only to the display text computed in
`draw`; and the malformed record does not abort the pass — the remaining
entries are still processed. -/
theorem c7_amended_missing_gender_fields (now : Nat) (d : Detection)
    (ar : AlignedRect) (s : AppState) (rest : List (Option Detection))
    (hg : d.gender = none) (hp : d.genderProbability = none)
    (har : d.alignedRect = some ar) :
    formatDataForTD now d = some (buildWire now d ar) ∧
    (buildWire now d ar).face.gender = none ∧
    (buildWire now d ar).face.genderConfidence = none ∧
    drawGenderLabel d = "unknown" ∧
    drawConfidence d = ConfDisplay.zero ∧
    (drawPass now s (some d :: rest)).2 =
      buildWire now d ar ::
        (drawPass now (processDetectionEntry now s (some d)).1 rest).2 := by
  refine ⟨?_, ?_, ?_, ?_, ?_, ?_⟩
  · unfold formatDataForTD
    rw [har]
  · simp [buildWire, hg]
  · simp [buildWire, hp]
  · unfold drawGenderLabel
    rw [hg]
  · unfold drawConfidence
    rw [hp]
  · have hp1 : processDetectionEntry now s (some d) =
        ((sendData s (buildWire now d ar)).2, some (buildWire now d ar)) := by
      simp only [processDetectionEntry]
      rw [har]
    simp [drawPass, hp1]

/-- Witness for the amended C7: the malformed record followed by a valid
record, both processed. -/
theorem c7_amended_witness :
    malformedDetection.gender = none ∧
    malformedDetection.genderProbability = none ∧
    drawGenderLabel malformedDetection = "unknown" ∧
    drawConfidence malformedDetection = ConfDisplay.zero ∧
    (drawPass 1000 openState (some malformedDetection :: [some sampleDetection])).2 =
      buildWire 1000 malformedDetection sampleRect ::
        (drawPass 1000
          (processDetectionEntry 1000 openState (some malformedDetection)).1
          [some sampleDetection]).2 := by
  have h := c7_amended_missing_gender_fields 1000 malformedDetection sampleRect
    openState [some sampleDetection] rfl rfl rfl
  exact ⟨rfl, rfl, h.2.2.2.1, h.2.2.2.2.1, h.2.2.2.2.2⟩

/-- C8: the formatter is deterministic — it is a pure function of the
record and the clock reading, so any two results of the same invocation
serialize to byte-identical strings — and its output has the WireMessage
shape, each field copied from the record (or from `alignedRect.box`, or the
clock). -/
theorem c8_formatter_deterministic_and_shaped (now : Nat) (d : Detection)
    (ar : AlignedRect) (har : d.alignedRect = some ar) :
    (∀ r1 r2 : Option WireMessage,
      formatDataForTD now d = r1 → formatDataForTD now d = r2 →
        r1.map serializeWire = r2.map serializeWire) ∧
    formatDataForTD now d = some (buildWire now d ar) ∧
    (buildWire now d ar).timestamp = now ∧
    (buildWire now d ar).face.gender = d.gender ∧
    (buildWire now d ar).face.genderConfidence = d.genderProbability ∧
    (buildWire now d ar).face.age = d.age ∧
    (buildWire now d ar).face.position =
      ⟨ar.box.x, ar.box.y, ar.box.width, ar.box.height⟩ ∧
    (buildWire now d ar).face.expressions = d.expressions := by
  refine ⟨fun r1 r2 h1 h2 => by rw [← h1, ← h2], ?_, rfl, rfl, rfl, rfl, rfl, rfl⟩
  unfold formatDataForTD
  rw [har]

/-- Witness for C8 at the §8 scenario record and a fixed clock. -/
theorem c8_witness :
    sampleDetection.alignedRect = some sampleRect ∧
    formatDataForTD 1000 sampleDetection = some (buildWire 1000 sampleDetection sampleRect) ∧
    (buildWire 1000 sampleDetection sampleRect).timestamp = 1000 := by
  refine ⟨rfl, ?_, ?_⟩
  · exact (c8_formatter_deterministic_and_shaped 1000 sampleDetection sampleRect rfl).2.1
  · exact (c8_formatter_deterministic_and_shaped 1000 sampleDetection sampleRect rfl).2.2.1

/-- C9: the detection tick wraps the awaited inference call in
`try/catch`, so a throwing inference is caught inside the handler (the
model is a total function: the loop is not crashed) and the shared
`detections` array keeps exactly the value it held before the tick —
assignment only happens after the awaited call succeeds. -/
theorem c9_failed_inference_preserves_detections (e : String)
    (resize : List (Option Detection) → Except String (List (Option Detection)))
    (old : List (Option Detection)) (videoReady : Bool) :
    tickDetections videoReady (Except.error e) resize old = old := by
  unfold tickDetections
  cases videoReady <;> rfl

/-- C10: in one draw pass the produced wire messages are exactly the
formats, in order, of the entries that pass the guard
`detection && detection.alignedRect` — a `null`/`undefined` entry or one
without `alignedRect` is skipped before `formatDataForTD` is ever invoked
(the pass trace records precisely the `formatDataForTD` invocations), while
every remaining entry of the same pass is still processed. -/
theorem c10_draw_skips_invalid_entries_processes_rest
    (now : Nat) (s : AppState) (ds : List (Option Detection)) :
    (drawPass now s ds).2 = ds.filterMap (fun e => e.bind (formatDataForTD now)) :=
  drawPass_messages now s ds

end SocketTest
